import Mathlib

/-!
Verification of the plugin-discovery and stats-writer-registration shim
(`mlagents/plugins/stats_writer.py`).

The Python module is shallowly embedded: Python values that flow through
the configuration flattener are modelled by an inductive `PyVal`, Python
dictionaries by insertion-ordered association lists with Python's
update/overwrite semantics, attribute access by a fallible `getattr?`
(returning an `AttributeError`-equivalent on a missing attribute), and the
host entry-point registry by an association list from namespace keys to
entry points.  Logging is modelled by returning the emitted messages next
to the writer list; exceptions are modelled with `Except`.
-/

mutual

/-- A Python value as seen by the flattener: `None`, booleans, integers,
strings, or an arbitrary object carrying a class name, an object identity,
and its attribute table. -/
inductive PyVal where
  | vnone
  | vbool (b : Bool)
  | vint (n : Int)
  | vstr (s : String)
  | vobj (cls : String) (oid : Nat) (attrs : PyAttrs)
  deriving DecidableEq

/-- An object's attribute table: attribute name, whether the attribute is
callable, and its value, listed in `dir()` order. -/
inductive PyAttrs where
  | anil
  | acons (name : String) (isCallable : Bool) (val : PyVal) (rest : PyAttrs)
  deriving DecidableEq

end

/-- View of an attribute table as a list of (name, isCallable, value)
triples, in `dir()` order. -/
def PyAttrs.toList : PyAttrs → List (String × Bool × PyVal)
  | .anil => []
  | .acons name isCallable val rest => (name, isCallable, val) :: rest.toList

/-- Builds an attribute table from a list of (name, isCallable, value)
triples. -/
def PyAttrs.ofList : List (String × Bool × PyVal) → PyAttrs
  | [] => .anil
  | (name, isCallable, val) :: rest => .acons name isCallable val (ofList rest)

/-- A Python exception relevant here: an `AttributeError` for a missing
attribute name, or any other error with a message. -/
inductive PyErr where
  | attributeError (name : String)
  | otherError (msg : String)
  deriving DecidableEq

/-- Decidable equality for `Except` results, used by the concrete
witnesses. -/
instance {ε α : Type} [DecidableEq ε] [DecidableEq α] : DecidableEq (Except ε α)
  | .ok a, .ok b =>
    if h : a = b then isTrue (by rw [h])
    else isFalse (fun hh => by injection hh; contradiction)
  | .error a, .error b =>
    if h : a = b then isTrue (by rw [h])
    else isFalse (fun hh => by injection hh; contradiction)
  | .ok _, .error _ => isFalse (fun hh => by injection hh)
  | .error _, .ok _ => isFalse (fun hh => by injection hh)

/-- Models the Python builtin `str` on `PyVal`: objects render with their
class name and identity, as Python's default `object.__repr__` does. -/
def pyStr : PyVal → String
  | .vnone => "None"
  | .vbool true => "True"
  | .vbool false => "False"
  | .vint n => toString n
  | .vstr s => s
  | .vobj cls oid _ => "<" ++ cls ++ " object at " ++ toString oid ++ ">"

/-- Models `getattr(v, name)`: looks the name up in an object's attribute
table and fails with an `AttributeError`-equivalent when it is absent (or
when the value is not an object carrying that attribute). -/
def getattr? (v : PyVal) (name : String) : Except PyErr PyVal :=
  match v with
  | .vobj _ _ attrs =>
    match attrs.toList.find? (fun a => decide (a.1 = name)) with
    | some a => .ok a.2.2
    | none => .error (.attributeError name)
  | _ => .error (.attributeError name)

/-- Models Python `attr.startswith("__")` on an attribute name: whether
its first two characters are underscores. -/
def startswith_dunder (s : String) : Bool :=
  match s.data with
  | '_' :: '_' :: _ => true
  | _ => false

/-- Embeds the helper `get_attributes` of `get_default_stats_writers`:
`{attr: getattr(obj, attr) for attr in dir(obj) if not
callable(getattr(obj, attr)) and not attr.startswith("__")}`.  On a
non-object primitive every attribute is a callable method or uses the
double-underscore naming convention, so the result is empty. -/
def get_attributes (v : PyVal) : List (String × PyVal) :=
  match v with
  | .vobj _ _ attrs =>
    (attrs.toList.filter (fun a => !a.2.1 && !(startswith_dunder a.1))).map
      (fun a => (a.1, a.2.2))
  | _ => []

/-- Python dictionary assignment `d[k] = v` on an insertion-ordered
association list: an existing key keeps its position and gets the new
value, a new key is appended at the end. -/
def dictSet {κ α : Type} [DecidableEq κ] (d : List (κ × α)) (k : κ) (v : α) :
    List (κ × α) :=
  if d.any (fun p => decide (p.1 = k)) then
    d.map (fun p => if p.1 = k then (k, v) else p)
  else
    d ++ [(k, v)]

/-- Python `d.update(items)`: assigns every pair of `items` into `d` in
order, later pairs overwriting earlier ones under key collision. -/
def dictUpdate {κ α : Type} [DecidableEq κ] (d items : List (κ × α)) :
    List (κ × α) :=
  items.foldl (fun acc kv => dictSet acc kv.1 kv.2) d

/-- Python dictionary lookup `d[k]` (as an `Option`). -/
def dictGet {κ α : Type} [DecidableEq κ] (d : List (κ × α)) (k : κ) :
    Option α :=
  (d.find? (fun p => decide (p.1 = k))).map Prod.snd

/-- Embeds `is_jsonable` from the source.  The module never imports the
`json` module, so `json.dumps(x)` raises a `NameError`, which the bare
`except:` catches; the function therefore returns `False` for every
input. -/
def is_jsonable (_x : PyVal) : Bool := false

/-- Embeds the body of `to_json_serializable`, parametrised by the
serialization probe it consults: for each pair of the input dictionary,
a key or value the probe rejects is replaced by its string form, and the
(possibly replaced) pair is assigned into the fresh output dictionary. -/
def to_json_serializable_with (probe : PyVal → Bool) (d : List (PyVal × PyVal)) :
    List (PyVal × PyVal) :=
  d.foldl (fun new_dict kv =>
    let key := if !(probe kv.1) then PyVal.vstr (pyStr kv.1) else kv.1
    let value := if !(probe kv.2) then PyVal.vstr (pyStr kv.2) else kv.2
    dictSet new_dict key value) []

/-- Embeds `to_json_serializable` from the source: the body above, with
`is_jsonable` as the probe. -/
def to_json_serializable (d : List (PyVal × PyVal)) : List (PyVal × PyVal) :=
  to_json_serializable_with is_jsonable d

/-- Modelled from the spec: the `checkpoint_settings` sub-object of
`RunOptions` (defined in `mlagents.trainers.settings`, outside this
module), exposing the two fields this module reads: the checkpoint write
path and the resume flag. -/
structure CheckpointSettings where
  write_path : String
  resume : Bool
  deriving DecidableEq

/-- Modelled from the spec: the opaque external `RunOptions` configuration
object (defined in `mlagents.trainers.settings`, outside this module),
with the nested fields this module reads: the behaviors mapping (behavior
name to behavior-settings object, in dictionary order), the checkpoint
settings, and the engine/env/torch settings objects plus environment
parameters. -/
structure RunOptions where
  behaviors : List (String × PyVal)
  checkpoint_settings : CheckpointSettings
  engine_settings : PyVal
  env_settings : PyVal
  torch_settings : PyVal
  environment_parameters : PyVal
  deriving DecidableEq

/-- One iteration of the behaviors loop of `get_default_stats_writers`:
reads `behavior_settings.hyperparameters` (fallibly), takes the public
non-callable attributes of the hyperparameters object and of the behavior
object, and updates the accumulated dictionary with the hyperparameter
attributes first and the behavior attributes second (the f-string key
formatting is the identity on these string keys). -/
def extract_behavior (acc : List (String × PyVal)) (behavior_settings : PyVal) :
    Except PyErr (List (String × PyVal)) :=
  match getattr? behavior_settings "hyperparameters" with
  | .error e => .error e
  | .ok hp =>
    let hyperparams := get_attributes hp
    let behavior_data := get_attributes behavior_settings
    .ok (dictUpdate (dictUpdate acc hyperparams) behavior_data)

/-- The behaviors loop of `get_default_stats_writers`: folds
`extract_behavior` over `run_options.behaviors.items()`, propagating the
first attribute failure. -/
def extract_behaviors :
    List (String × PyVal) → List (String × PyVal) →
      Except PyErr (List (String × PyVal))
  | [], acc => .ok acc
  | (_, behavior_settings) :: rest, acc =>
    match extract_behavior acc behavior_settings with
    | .error e => .error e
    | .ok acc' => extract_behaviors rest acc'

/-- The `settings_list` constant of `get_default_stats_writers`. -/
def settings_list : List String := ["engine_settings", "env_settings", "torch_settings"]

/-- Models `getattr(run_options, setting_name)` for the three settings
names this module reads; the fields always exist on `RunOptions`, so the
access is infallible (other names are never passed). -/
def run_options_getattr (run_options : RunOptions) (name : String) : PyVal :=
  if name = "engine_settings" then run_options.engine_settings
  else if name = "env_settings" then run_options.env_settings
  else if name = "torch_settings" then run_options.torch_settings
  else .vnone

/-- The settings loop of `get_default_stats_writers`: for each settings
name, updates the dictionary with that object's public attributes, each
key prefixed with the settings name and an underscore. -/
def extract_settings (run_options : RunOptions) (acc : List (String × PyVal)) :
    List (String × PyVal) :=
  settings_list.foldl (fun acc setting_name =>
    dictUpdate acc
      ((get_attributes (run_options_getattr run_options setting_name)).map
        (fun kv => (setting_name ++ "_" ++ kv.1, kv.2)))) acc

/-- The attribute-extraction phase of `get_default_stats_writers`: the
behaviors loop starting from an empty dictionary, then the settings
loop. -/
def extract_config (run_options : RunOptions) :
    Except PyErr (List (String × PyVal)) :=
  match extract_behaviors run_options.behaviors [] with
  | .error e => .error e
  | .ok extracted_data => .ok (extract_settings run_options extracted_data)

/-- The full flattening pipeline of `get_default_stats_writers` (the
spec's ConfigFlattener): attribute extraction followed by the
serialization coercion `to_json_serializable` (the extracted dictionary's
keys are Python strings, embedded as `PyVal.vstr`). -/
def config_flattener (run_options : RunOptions) :
    Except PyErr (List (PyVal × PyVal)) :=
  match extract_config run_options with
  | .error e => .error e
  | .ok extracted_data =>
    .ok (to_json_serializable (extracted_data.map (fun kv => (PyVal.vstr kv.1, kv.2))))

/-- A constructed stats writer, holding exactly the configuration the
source passes to the corresponding constructor from
`mlagents.trainers.stats` (modelled from the spec as opaque sinks). -/
inductive StatsWriterInst where
  | tensorboardWriter (base_dir : String) (clear_past_data : Bool)
      (hidden_keys : List String)
  | gaugeWriter
  | consoleWriter
  | wandbWriter (config : List (PyVal × PyVal))
  deriving DecidableEq

/-- Embeds `get_default_stats_writers`: flattens the configuration and
returns the four default writers — the tensorboard writer (write path,
`clear_past_data = not resume`, hidden keys "Is Training" and "Step"), the
gauge writer, the console writer, and the wandb writer holding the
flattened configuration. -/
def get_default_stats_writers (run_options : RunOptions) :
    Except PyErr (List StatsWriterInst) :=
  match config_flattener run_options with
  | .error e => .error e
  | .ok extracted_data =>
    .ok [ .tensorboardWriter run_options.checkpoint_settings.write_path
            (!run_options.checkpoint_settings.resume) ["Is Training", "Step"],
          .gaugeWriter,
          .consoleWriter,
          .wandbWriter extracted_data ]

/-- Modelled from the spec: the fixed namespace key
`ML_AGENTS_STATS_WRITER` (defined in `mlagents.plugins`, outside this
module); an opaque string constant identifying the stats-writer plugin
category. -/
def ML_AGENTS_STATS_WRITER : String := "mlagents.stats_writer"

/-- Level of a diagnostic message. -/
inductive LogLevel where
  | debugLevel
  | warningLevel
  | errorLevel
  deriving DecidableEq

/-- A diagnostic message emitted during resolution. -/
structure LogMsg where
  level : LogLevel
  text : String
  deriving DecidableEq

/-- A registered plugin entry point, as the host plugin-discovery
mechanism hands it over: a name, and a loadable factory.  `load` models
`entry_point.load()` (which may fail), and the loaded factory models
`plugin_func(run_options)` (which may fail, covering both a raising
factory and a malformed return). -/
structure EntryPoint where
  name : String
  load : Except PyErr (RunOptions → Except PyErr (List StatsWriterInst))

/-- The host registry returned by `importlib_metadata.entry_points()`: a
mapping from namespace keys to the entry points registered under them. -/
def EntryPointRegistry : Type := List (String × List EntryPoint)

/-- Membership test `key in entry_points()` on the registry's keys. -/
def registry_contains (reg : EntryPointRegistry) (key : String) : Bool :=
  reg.any (fun p => decide (p.1 = key))

/-- Lookup `entry_points()[key]` (the registered entry points under a
present key; empty when absent, but only queried after the membership
test succeeds). -/
def registry_lookup (reg : EntryPointRegistry) (key : String) : List EntryPoint :=
  match reg.find? (fun p => decide (p.1 = key)) with
  | some p => p.2
  | none => []

/-- The error-level message `register_stats_writer_plugins` logs for a
failing entry point. -/
def plugin_failure_msg (entry_point_name : String) : LogMsg :=
  ⟨.errorLevel, "Error initializing StatsWriter plugins for " ++ entry_point_name ++
    ". This plugin will not be used."⟩

/-- The body of the entry-point loop of `register_stats_writer_plugins`
(the `try` block with its `except BaseException` handler): logs the
initialization debug message, loads the entry point and invokes the
loaded factory; a failure at either step is absorbed, logged at error
level, and contributes no writers, while success logs the count of
returned writers and contributes them. -/
def process_entry_point (run_options : RunOptions) (entry_point : EntryPoint) :
    List LogMsg × List StatsWriterInst :=
  let initMsg : LogMsg :=
    ⟨.debugLevel, "Initializing StatsWriter plugins: " ++ entry_point.name⟩
  match entry_point.load with
  | .error _ => ([initMsg, plugin_failure_msg entry_point.name], [])
  | .ok plugin_func =>
    match plugin_func run_options with
    | .error _ => ([initMsg, plugin_failure_msg entry_point.name], [])
    | .ok plugin_stats_writers =>
      ([initMsg,
        ⟨.debugLevel, "Found " ++ toString plugin_stats_writers.length ++
          " StatsWriters for plugin " ++ entry_point.name⟩],
       plugin_stats_writers)

/-- The warning `register_stats_writer_plugins` logs when the namespace
key is absent from the registry. -/
def no_entry_points_warning : LogMsg :=
  ⟨.warningLevel, "Unable to find any entry points for " ++ ML_AGENTS_STATS_WRITER ++
    ", even the default ones. Uninstalling and reinstalling ml-agents via pip " ++
    "should resolve. Using default plugins for now."⟩

/-- Embeds `register_stats_writer_plugins` (the spec's
`PluginRegistry.resolve`), with the host registry passed explicitly and
the emitted log messages returned next to the writer list.  When the
namespace key is absent it logs a warning and returns the default
writers (whose construction is not guarded, so its failure propagates);
otherwise it folds the guarded per-entry-point step over the registered
entry points, accumulating logs and writers, and cannot fail. -/
def register_stats_writer_plugins (reg : EntryPointRegistry)
    (run_options : RunOptions) : Except PyErr (List LogMsg × List StatsWriterInst) :=
  if !(registry_contains reg ML_AGENTS_STATS_WRITER) then
    match get_default_stats_writers run_options with
    | .error e => .error e
    | .ok ws => .ok ([no_entry_points_warning], ws)
  else
    let entry_points := registry_lookup reg ML_AGENTS_STATS_WRITER
    .ok (entry_points.foldl (fun acc entry_point =>
      let r := process_entry_point run_options entry_point
      (acc.1 ++ r.1, acc.2 ++ r.2)) ([], []))

/-- Sample hyperparameters object used by the concrete witnesses. -/
def sampleHyper : PyVal :=
  .vobj "PPOSettings" 1
    (.acons "batch_size" false (.vint 64)
      (.acons "learning_rate" false (.vstr "0.0003")
        (.acons "as_dict" true .vnone .anil)))

/-- Sample behavior-settings object: carries the hyperparameters object,
an attribute sharing the name `learning_rate` with one of its own
hyperparameters, a scalar attribute, a callable and a double-underscore
attribute (the latter two are filtered out by `get_attributes`). -/
def sampleBehavior : PyVal :=
  .vobj "TrainerSettings" 2
    (.acons "__class__" false (.vstr "TrainerSettings")
      (.acons "hyperparameters" false sampleHyper
        (.acons "learning_rate" false (.vstr "overridden")
          (.acons "max_steps" false (.vint 500000)
            (.acons "to_dict" true .vnone .anil)))))

/-- Sample `RunOptions` used by the concrete witnesses. -/
def sampleRunOptions : RunOptions :=
  { behaviors := [("Walker", sampleBehavior)],
    checkpoint_settings := { write_path := "results/run1", resume := false },
    engine_settings := .vobj "EngineSettings" 3
      (.acons "width" false (.vint 84) .anil),
    env_settings := .vobj "EnvSettings" 4 .anil,
    torch_settings := .vobj "TorchSettings" 5
      (.acons "device" false (.vstr "cpu") .anil),
    environment_parameters := .vnone }

/-- The sample `RunOptions` with the resume flag set, for the resume
scenario. -/
def sampleRunOptionsResume : RunOptions :=
  { sampleRunOptions with
    checkpoint_settings := { write_path := "results/run1", resume := true } }

/-- A behavior-settings object with no `hyperparameters` attribute: a
malformed configuration whose flattening fails. -/
def malformedBehavior : PyVal :=
  .vobj "TrainerSettings" 7 (.acons "max_steps" false (.vint 10) .anil)

/-- `RunOptions` whose single behavior is malformed. -/
def malformedRunOptions : RunOptions :=
  { sampleRunOptions with behaviors := [("Bad", malformedBehavior)] }

/-- The entry point that registers the defaults themselves: its loaded
factory is `get_default_stats_writers`. -/
def defaultEntryPoint : EntryPoint :=
  ⟨"default", .ok get_default_stats_writers⟩

/-- A well-behaved sample plugin returning one gauge writer. -/
def gaugePluginEntryPoint : EntryPoint :=
  ⟨"gauge_plugin", .ok (fun _ => .ok [.gaugeWriter])⟩

/-- A well-behaved sample plugin returning two writers. -/
def pairPluginEntryPoint : EntryPoint :=
  ⟨"pair_plugin", .ok (fun _ => .ok [.consoleWriter, .gaugeWriter])⟩

/-- A sample plugin whose factory raises on invocation. -/
def raisingPluginEntryPoint : EntryPoint :=
  ⟨"raising_plugin", .ok (fun _ => .error (.otherError "boom"))⟩

/-- A registry with no stats-writer namespace key at all. -/
def emptyRegistry : EntryPointRegistry := []

/-- A registry with two well-behaved plugins under the namespace key. -/
def twoPluginRegistry : EntryPointRegistry :=
  [(ML_AGENTS_STATS_WRITER, [gaugePluginEntryPoint, pairPluginEntryPoint])]

/-- A registry with a raising plugin between two well-behaved ones. -/
def failingPluginRegistry : EntryPointRegistry :=
  [(ML_AGENTS_STATS_WRITER,
    [gaugePluginEntryPoint, raisingPluginEntryPoint, pairPluginEntryPoint])]

/-- A registry whose only entry point under the namespace key is the
defaults' own. -/
def defaultOnlyRegistry : EntryPointRegistry :=
  [(ML_AGENTS_STATS_WRITER, [defaultEntryPoint])]

/-- The flattened configuration of `sampleRunOptions`, written out: every
key and value has been coerced to its string form (in particular the
behavior's own `learning_rate` attribute has overwritten the
hyperparameter of the same name, and the `hyperparameters` object itself
appears as its string form). -/
def sampleFlattenedConfig : List (PyVal × PyVal) :=
  [(.vstr "batch_size", .vstr "64"),
   (.vstr "learning_rate", .vstr "overridden"),
   (.vstr "hyperparameters", .vstr "<PPOSettings object at 1>"),
   (.vstr "max_steps", .vstr "500000"),
   (.vstr "engine_settings_width", .vstr "84"),
   (.vstr "torch_settings_device", .vstr "cpu")]

/-- The default writer list for `sampleRunOptions`, written out. -/
def sampleDefaultWriters : List StatsWriterInst :=
  [.tensorboardWriter "results/run1" true ["Is Training", "Step"],
   .gaugeWriter, .consoleWriter, .wandbWriter sampleFlattenedConfig]

theorem dictSet_cons_ne {κ α : Type} [DecidableEq κ] {p : κ × α}
    {d : List (κ × α)} {k : κ} {v : α} (h : p.1 ≠ k) :
    dictSet (p :: d) k v = p :: dictSet d k v := by
  unfold dictSet
  simp only [List.any_cons, decide_eq_true_eq, h, decide_False, Bool.false_or,
    List.map_cons, if_neg h]
  split <;> simp

theorem dictGet_cons_ne {κ α : Type} [DecidableEq κ] {p : κ × α}
    {d : List (κ × α)} {k : κ} (h : p.1 ≠ k) :
    dictGet (p :: d) k = dictGet d k := by
  unfold dictGet
  rw [List.find?_cons_of_neg]
  simpa using h

theorem dictGet_dictSet_self {κ α : Type} [DecidableEq κ]
    (d : List (κ × α)) (k : κ) (v : α) :
    dictGet (dictSet d k v) k = some v := by
  induction d with
  | nil =>
    simp [dictSet, dictGet]
  | cons p rest ih =>
    by_cases hk : p.1 = k
    · unfold dictSet
      have hany : (p :: rest).any (fun q => decide (q.1 = k)) = true := by
        simp [List.any_cons, hk]
      rw [if_pos hany]
      simp only [List.map_cons, if_pos hk]
      unfold dictGet
      rw [List.find?_cons_of_pos]
      · rfl
      · simp
    · rw [dictSet_cons_ne hk, dictGet_cons_ne hk, ih]

theorem dictGet_map_overwrite_ne {κ α : Type} [DecidableEq κ]
    {k k' : κ} (v : α) (h : k ≠ k') :
    ∀ d : List (κ × α),
      dictGet (d.map (fun p => if p.1 = k' then (k', v) else p)) k = dictGet d k
  | [] => rfl
  | p :: rest => by
    by_cases hp : p.1 = k'
    · rw [List.map_cons, if_pos hp]
      rw [dictGet_cons_ne (by simpa using h.symm),
        dictGet_cons_ne (hp ▸ (fun hh => h hh.symm)),
        dictGet_map_overwrite_ne v h rest]
    · rw [List.map_cons, if_neg hp]
      by_cases hk : p.1 = k
      · unfold dictGet
        rw [List.find?_cons_of_pos, List.find?_cons_of_pos] <;> simp [hk]
      · rw [dictGet_cons_ne hk, dictGet_cons_ne hk,
          dictGet_map_overwrite_ne v h rest]

theorem dictGet_append_single_ne {κ α : Type} [DecidableEq κ]
    {k k' : κ} (v : α) (h : k ≠ k') (d : List (κ × α)) :
    dictGet (d ++ [(k', v)]) k = dictGet d k := by
  unfold dictGet
  rw [List.find?_append]
  cases hfd : d.find? (fun p => decide (p.1 = k)) with
  | some p => rfl
  | none =>
    simp [Option.orElse]
    exact h.symm

theorem dictGet_dictSet_ne {κ α : Type} [DecidableEq κ]
    {k k' : κ} (d : List (κ × α)) (v : α) (h : k ≠ k') :
    dictGet (dictSet d k' v) k = dictGet d k := by
  unfold dictSet
  split
  · exact dictGet_map_overwrite_ne v h d
  · exact dictGet_append_single_ne v h d

theorem dictUpdate_cons {κ α : Type} [DecidableEq κ]
    (d : List (κ × α)) (p : κ × α) (items : List (κ × α)) :
    dictUpdate d (p :: items) = dictUpdate (dictSet d p.1 p.2) items := rfl

theorem dictGet_dictUpdate_not_mem {κ α : Type} [DecidableEq κ] {k : κ} :
    ∀ (items : List (κ × α)) (d : List (κ × α)),
      k ∉ items.map Prod.fst →
      dictGet (dictUpdate d items) k = dictGet d k
  | [], _, _ => rfl
  | p :: items, d, h => by
    have hmap : (p :: items).map Prod.fst = p.1 :: items.map Prod.fst := rfl
    have h1 : k ∉ items.map Prod.fst :=
      fun hm => h (hmap ▸ List.mem_cons_of_mem _ hm)
    have h2 : p.1 ≠ k := by
      intro hh
      exact h (by rw [hmap, hh]; exact List.mem_cons_self _ _)
    rw [dictUpdate_cons, dictGet_dictUpdate_not_mem items _ h1]
    exact dictGet_dictSet_ne d p.2 (fun hh => h2 hh.symm)

theorem dictGet_dictUpdate_mem {κ α : Type} [DecidableEq κ] {k : κ} {v : α} :
    ∀ (items : List (κ × α)) (d : List (κ × α)),
      (items.map Prod.fst).Nodup → (k, v) ∈ items →
      dictGet (dictUpdate d items) k = some v
  | [], _, _, hmem => absurd hmem (List.not_mem_nil _)
  | p :: items, d, hnd, hmem => by
    have hnd' : p.1 ∉ items.map Prod.fst ∧ (items.map Prod.fst).Nodup :=
      List.nodup_cons.1 (by rw [List.map_cons] at hnd; exact hnd)
    rcases List.mem_cons.1 hmem with heq | hmem'
    · subst heq
      rw [dictUpdate_cons, dictGet_dictUpdate_not_mem items _ hnd'.1]
      exact dictGet_dictSet_self d k v
    · rw [dictUpdate_cons]
      exact dictGet_dictUpdate_mem items _ hnd'.2 hmem'

theorem mem_dictSet {κ α : Type} [DecidableEq κ] {d : List (κ × α)}
    {k : κ} {v : α} {kv : κ × α} (h : kv ∈ dictSet d k v) :
    kv ∈ d ∨ kv = (k, v) := by
  unfold dictSet at h
  split at h
  · rcases List.mem_map.1 h with ⟨p, hp, heq⟩
    by_cases hk : p.1 = k
    · right
      rw [if_pos hk] at heq
      exact heq.symm
    · left
      rw [if_neg hk] at heq
      exact heq ▸ hp
  · rcases List.mem_append.1 h with h1 | h1
    · exact .inl h1
    · right
      simpa using h1

theorem to_json_serializable_eq_stringify (d : List (PyVal × PyVal)) :
    to_json_serializable d =
      d.foldl (fun new_dict kv =>
        dictSet new_dict (PyVal.vstr (pyStr kv.1)) (PyVal.vstr (pyStr kv.2))) [] := rfl

theorem foldl_stringify_mem_strings :
    ∀ (d acc : List (PyVal × PyVal)),
      (∀ kv ∈ acc, (∃ s, kv.1 = PyVal.vstr s) ∧ (∃ t, kv.2 = PyVal.vstr t)) →
      ∀ kv ∈ d.foldl (fun new_dict kv =>
          dictSet new_dict (PyVal.vstr (pyStr kv.1)) (PyVal.vstr (pyStr kv.2))) acc,
        (∃ s, kv.1 = PyVal.vstr s) ∧ (∃ t, kv.2 = PyVal.vstr t)
  | [], _, hacc, kv => fun hm => hacc kv hm
  | p :: d, acc, hacc, kv => by
    intro hm
    refine foldl_stringify_mem_strings d _ ?_ kv hm
    intro q hq
    rcases mem_dictSet hq with hq' | hq'
    · exact hacc q hq'
    · exact ⟨⟨pyStr p.1, by rw [hq']⟩, ⟨pyStr p.2, by rw [hq']⟩⟩

theorem to_json_serializable_mem_strings {d : List (PyVal × PyVal)}
    {kv : PyVal × PyVal} (h : kv ∈ to_json_serializable d) :
    (∃ s, kv.1 = PyVal.vstr s) ∧ (∃ t, kv.2 = PyVal.vstr t) := by
  rw [to_json_serializable_eq_stringify] at h
  exact foldl_stringify_mem_strings d [] (by intro q hq; cases hq) kv h

theorem foldl_process_append (run_options : RunOptions) :
    ∀ (eps : List EntryPoint) (acc : List LogMsg × List StatsWriterInst),
      eps.foldl (fun acc entry_point =>
        let r := process_entry_point run_options entry_point
        (acc.1 ++ r.1, acc.2 ++ r.2)) acc =
      (acc.1 ++ (eps.map (fun ep => (process_entry_point run_options ep).1)).flatten,
       acc.2 ++ (eps.map (fun ep => (process_entry_point run_options ep).2)).flatten)
  | [], acc => by simp
  | ep :: eps, acc => by
    rw [List.foldl_cons, foldl_process_append run_options eps]
    simp [List.append_assoc]

theorem register_plugins_found (reg : EntryPointRegistry) (run_options : RunOptions)
    (hkey : registry_contains reg ML_AGENTS_STATS_WRITER = true) :
    register_stats_writer_plugins reg run_options =
      .ok (((registry_lookup reg ML_AGENTS_STATS_WRITER).map
              (fun ep => (process_entry_point run_options ep).1)).flatten,
           ((registry_lookup reg ML_AGENTS_STATS_WRITER).map
              (fun ep => (process_entry_point run_options ep).2)).flatten) := by
  unfold register_stats_writer_plugins
  rw [hkey]
  simp only [Bool.not_true, Bool.false_eq_true, if_false]
  rw [foldl_process_append]
  simp

theorem register_no_key (reg : EntryPointRegistry) (run_options : RunOptions)
    (hkey : registry_contains reg ML_AGENTS_STATS_WRITER = false) :
    register_stats_writer_plugins reg run_options =
      match get_default_stats_writers run_options with
      | .error e => .error e
      | .ok ws => .ok ([no_entry_points_warning], ws) := by
  unfold register_stats_writer_plugins
  rw [hkey]
  simp

theorem get_default_stats_writers_shape (run_options : RunOptions)
    (ws : List StatsWriterInst)
    (h : get_default_stats_writers run_options = .ok ws) :
    ∃ cfg, config_flattener run_options = .ok cfg ∧
      ws = [.tensorboardWriter run_options.checkpoint_settings.write_path
              (!run_options.checkpoint_settings.resume) ["Is Training", "Step"],
            .gaugeWriter, .consoleWriter, .wandbWriter cfg] := by
  unfold get_default_stats_writers at h
  cases hcf : config_flattener run_options with
  | error e => rw [hcf] at h; cases h
  | ok cfg =>
    rw [hcf] at h
    injection h with h
    exact ⟨cfg, rfl, h.symm⟩

theorem get_default_stats_writers_length (run_options : RunOptions)
    (ws : List StatsWriterInst)
    (h : get_default_stats_writers run_options = .ok ws) : ws.length = 4 := by
  rcases get_default_stats_writers_shape run_options ws h with ⟨cfg, _, hws⟩
  rw [hws]
  rfl

theorem sum_map_eraseIdx {α : Type} (f : α → Nat) :
    ∀ (l : List α) (j : Nat) (hj : j < l.length),
      (l.map f).sum = f (l.get ⟨j, hj⟩) + ((l.eraseIdx j).map f).sum
  | a :: l, 0, _ => by simp [List.eraseIdx]
  | a :: l, j+1, hj => by
    have ih := sum_map_eraseIdx f l j (by simpa using hj)
    simp only [List.eraseIdx, List.map_cons, List.sum_cons, List.get_cons_succ, ih]
    omega

/-- C1: For every RunOptions, when the fixed stats-writer namespace key is
absent from the host plugin registry's set of known entry-point keys,
`register_stats_writer_plugins` logs a warning and returns exactly the
four default sinks in fixed order — tensorboard sink, gauge sink, console
sink, experiment-tracker (wandb) sink — nothing more and nothing less.
(Stated for every RunOptions on which the unguarded default-writer
construction succeeds.) -/
theorem resolve_no_entry_points_returns_default_sinks
    (reg : EntryPointRegistry) (run_options : RunOptions)
    (hkey : registry_contains reg ML_AGENTS_STATS_WRITER = false)
    (ws : List StatsWriterInst)
    (hok : get_default_stats_writers run_options = .ok ws) :
    register_stats_writer_plugins reg run_options =
      .ok ([no_entry_points_warning], ws) ∧
    no_entry_points_warning.level = .warningLevel ∧
    ∃ cfg, ws = [.tensorboardWriter run_options.checkpoint_settings.write_path
        (!run_options.checkpoint_settings.resume) ["Is Training", "Step"],
      .gaugeWriter, .consoleWriter, .wandbWriter cfg] := by
  refine ⟨?_, rfl, ?_⟩
  · rw [register_no_key reg run_options hkey, hok]
  · rcases get_default_stats_writers_shape run_options ws hok with ⟨cfg, _, hws⟩
    exact ⟨cfg, hws⟩

theorem resolve_no_entry_points_returns_default_sinks_witness :
    registry_contains emptyRegistry ML_AGENTS_STATS_WRITER = false ∧
    get_default_stats_writers sampleRunOptions = .ok sampleDefaultWriters ∧
    register_stats_writer_plugins emptyRegistry sampleRunOptions =
      .ok ([no_entry_points_warning], sampleDefaultWriters) :=
  ⟨rfl, by rfl,
   (resolve_no_entry_points_returns_default_sinks emptyRegistry sampleRunOptions rfl
      sampleDefaultWriters (by rfl)).1⟩

/-- C6: For every RunOptions (on which the default-writer construction
succeeds), the tensorboard sink constructed first by the default writer
factory receives the checkpoint write path, a clear-past-data flag equal
to the negation of `checkpoint_settings.resume`, and the hidden metric
keys "Is Training" and "Step". -/
theorem tensorboard_sink_configuration (run_options : RunOptions)
    (ws : List StatsWriterInst)
    (hok : get_default_stats_writers run_options = .ok ws) :
    ws.head? = some (.tensorboardWriter run_options.checkpoint_settings.write_path
      (!run_options.checkpoint_settings.resume) ["Is Training", "Step"]) := by
  rcases get_default_stats_writers_shape run_options ws hok with ⟨cfg, _, hws⟩
  rw [hws]
  rfl

/-- The default writer list of the resume variant of the sample run
options: identical except that the tensorboard clear-past-data flag is
false. -/
def sampleDefaultWritersResume : List StatsWriterInst :=
  [.tensorboardWriter "results/run1" false ["Is Training", "Step"],
   .gaugeWriter, .consoleWriter, .wandbWriter sampleFlattenedConfig]

theorem tensorboard_sink_configuration_witness :
    sampleDefaultWriters.head? =
      some (.tensorboardWriter "results/run1" true ["Is Training", "Step"]) ∧
    sampleDefaultWritersResume.head? =
      some (.tensorboardWriter "results/run1" false ["Is Training", "Step"]) :=
  ⟨tensorboard_sink_configuration sampleRunOptions sampleDefaultWriters (by rfl),
   tensorboard_sink_configuration sampleRunOptionsResume sampleDefaultWritersResume (by rfl)⟩

/-- C8: The configuration flattening (attribute extraction plus
serialization coercion) is deterministic: two runs on the same RunOptions
yield equal ExtractedConfigMaps (and equal default writer lists). -/
theorem config_flattener_deterministic (ro₁ ro₂ : RunOptions) (h : ro₁ = ro₂) :
    config_flattener ro₁ = config_flattener ro₂ ∧
    get_default_stats_writers ro₁ = get_default_stats_writers ro₂ := by
  rw [h]
  exact ⟨rfl, rfl⟩

theorem config_flattener_deterministic_witness :
    config_flattener sampleRunOptions = config_flattener sampleRunOptions ∧
    get_default_stats_writers sampleRunOptions =
      get_default_stats_writers sampleRunOptions :=
  config_flattener_deterministic sampleRunOptions sampleRunOptions rfl

/-- The serialization-coercion step as the spec words it: a key or value
for which the probe succeeds is kept unchanged, one for which it fails is
replaced by its string representation, independently on key and value. -/
def coerce_probe_entry (probe : PyVal → Bool) (kv : PyVal × PyVal) :
    PyVal × PyVal :=
  (if probe kv.1 then kv.1 else .vstr (pyStr kv.1),
   if probe kv.2 then kv.2 else .vstr (pyStr kv.2))

/-- C4: For every key and value entering the serialization-coercion step,
a serialization probe is attempted independently on the key and on the
value; a key or value the probe accepts is kept unchanged and one it
rejects is replaced by its string representation — the coercion step
equals assigning the per-entry coercions, in order, into a fresh
dictionary, for any probe, and `to_json_serializable` is that step with
the `is_jsonable` probe. -/
theorem coercion_probes_keys_and_values_independently (probe : PyVal → Bool)
    (d : List (PyVal × PyVal)) :
    to_json_serializable_with probe d =
      (d.map (coerce_probe_entry probe)).foldl
        (fun new_dict kv => dictSet new_dict kv.1 kv.2) [] ∧
    to_json_serializable d = to_json_serializable_with is_jsonable d := by
  refine ⟨?_, rfl⟩
  rw [List.foldl_map]
  unfold to_json_serializable_with coerce_probe_entry
  congr 1
  funext new_dict kv
  cases hk : probe kv.1 <;> cases hv : probe kv.2 <;> simp [hk, hv]

theorem config_flattener_ok_mem_strings (run_options : RunOptions)
    (cfg : List (PyVal × PyVal)) (hok : config_flattener run_options = .ok cfg) :
    ∀ kv ∈ cfg, (∃ s, kv.1 = PyVal.vstr s) ∧ (∃ t, kv.2 = PyVal.vstr t) := by
  intro kv hkv
  unfold config_flattener at hok
  cases hec : extract_config run_options with
  | error e => rw [hec] at hok; cases hok
  | ok d =>
    rw [hec] at hok
    injection hok with hok
    rw [← hok] at hkv
    exact to_json_serializable_mem_strings hkv

/-- C5: Implicit claim — `is_jsonable` returns false for every input
(`json.dumps` raises a NameError because the `json` module is never
imported, and the bare except catches it), so `to_json_serializable`
converts every key and every value to its string form; consequently every
key and every value of the flattened configuration handed to the
experiment-tracker (wandb) sink is a string. -/
theorem is_jsonable_always_false_tracker_config_all_strings
    (run_options : RunOptions) (ws : List StatsWriterInst)
    (cfg : List (PyVal × PyVal))
    (hok : get_default_stats_writers run_options = .ok ws)
    (hmem : StatsWriterInst.wandbWriter cfg ∈ ws) :
    (∀ x : PyVal, is_jsonable x = false) ∧
    ∀ kv ∈ cfg, (∃ s, kv.1 = PyVal.vstr s) ∧ (∃ t, kv.2 = PyVal.vstr t) := by
  refine ⟨fun _ => rfl, ?_⟩
  rcases get_default_stats_writers_shape run_options ws hok with ⟨cfg', hcf, hws⟩
  subst hws
  simp only [List.mem_cons, List.not_mem_nil, or_false] at hmem
  rcases hmem with h | h | h | h
  · cases h
  · cases h
  · cases h
  · injection h with h
    subst h
    exact config_flattener_ok_mem_strings run_options _ hcf

theorem is_jsonable_always_false_tracker_config_all_strings_witness :
    get_default_stats_writers sampleRunOptions = .ok sampleDefaultWriters ∧
    StatsWriterInst.wandbWriter sampleFlattenedConfig ∈ sampleDefaultWriters ∧
    ((∀ x : PyVal, is_jsonable x = false) ∧
      ∀ kv ∈ sampleFlattenedConfig,
        (∃ s, kv.1 = PyVal.vstr s) ∧ (∃ t, kv.2 = PyVal.vstr t)) :=
  ⟨by rfl, by decide,
   is_jsonable_always_false_tracker_config_all_strings sampleRunOptions
     sampleDefaultWriters sampleFlattenedConfig (by rfl) (by decide)⟩

/-- Modelled from the spec: whether a value survives a JSON-style
encode/decode round trip without error — Python primitives (None,
booleans, integers, strings) do; an arbitrary object makes the encoder
raise. -/
def json_roundtrip_safe : PyVal → Bool
  | .vobj _ _ _ => false
  | _ => true

/-- C7: For every RunOptions on which the configuration flattening
succeeds, every key and every value in the resulting ExtractedConfigMap
is serializer-safe: it round-trips through a JSON-style encode/decode
without raising. -/
theorem flattened_config_serializer_safe (run_options : RunOptions)
    (cfg : List (PyVal × PyVal)) (hok : config_flattener run_options = .ok cfg) :
    ∀ kv ∈ cfg, json_roundtrip_safe kv.1 = true ∧ json_roundtrip_safe kv.2 = true := by
  intro kv hkv
  rcases config_flattener_ok_mem_strings run_options cfg hok kv hkv with ⟨⟨s, hs⟩, ⟨t, ht⟩⟩
  rw [hs, ht]
  exact ⟨rfl, rfl⟩

theorem flattened_config_serializer_safe_witness :
    config_flattener sampleRunOptions = .ok sampleFlattenedConfig ∧
    ∀ kv ∈ sampleFlattenedConfig,
      json_roundtrip_safe kv.1 = true ∧ json_roundtrip_safe kv.2 = true :=
  ⟨by rfl,
   flattened_config_serializer_safe sampleRunOptions sampleFlattenedConfig (by rfl)⟩

theorem process_entry_point_ok (run_options : RunOptions) (ep : EntryPoint)
    (f : RunOptions → Except PyErr (List StatsWriterInst))
    (ws : List StatsWriterInst)
    (hload : ep.load = .ok f) (hf : f run_options = .ok ws) :
    (process_entry_point run_options ep).2 = ws := by
  unfold process_entry_point
  rw [hload]
  dsimp only
  rw [hf]

/-- C2: For every RunOptions, when the namespace key is present with
registered entry points whose factories all succeed, resolution returns
the concatenation of the plugins' sink sequences in discovery order — it
does not separately prepend the four defaults — so the total length is
the sum of the per-plugin counts; when the defaults' own entry point is
among the registered plugins its contribution is the four default sinks,
making the total 4 plus the sum over the remaining plugins. -/
theorem resolve_concatenates_plugin_sinks (reg : EntryPointRegistry)
    (run_options : RunOptions)
    (hkey : registry_contains reg ML_AGENTS_STATS_WRITER = true)
    (outs : List (List StatsWriterInst))
    (hlen : (registry_lookup reg ML_AGENTS_STATS_WRITER).length = outs.length)
    (hsucc : ∀ i (hi : i < (registry_lookup reg ML_AGENTS_STATS_WRITER).length),
      ∃ f, ((registry_lookup reg ML_AGENTS_STATS_WRITER).get ⟨i, hi⟩).load = .ok f ∧
        f run_options = .ok (outs.get ⟨i, hlen ▸ hi⟩)) :
    (∃ logs, register_stats_writer_plugins reg run_options =
      .ok (logs, outs.flatten)) ∧
    outs.flatten.length = (outs.map List.length).sum ∧
    ∀ j (hj : j < outs.length),
      get_default_stats_writers run_options = .ok (outs.get ⟨j, hj⟩) →
      outs.flatten.length = 4 + ((outs.eraseIdx j).map List.length).sum := by
  have hmap : (registry_lookup reg ML_AGENTS_STATS_WRITER).map
      (fun ep => (process_entry_point run_options ep).2) = outs := by
    apply List.ext_get
    · simpa using hlen
    · intro i h1 h2
      have h1' : i < (registry_lookup reg ML_AGENTS_STATS_WRITER).length := by
        simpa using h1
      rcases hsucc i h1' with ⟨f, hload, hf⟩
      have hp := process_entry_point_ok run_options _ f _ hload hf
      simp only [List.get_eq_getElem, List.getElem_map]
      simpa [List.get_eq_getElem] using hp
  refine ⟨⟨((registry_lookup reg ML_AGENTS_STATS_WRITER).map
      (fun ep => (process_entry_point run_options ep).1)).flatten, ?_⟩, ?_, ?_⟩
  · rw [register_plugins_found reg run_options hkey, hmap]
  · exact List.length_flatten outs
  · intro j hj hdef
    have h4 : (outs.get ⟨j, hj⟩).length = 4 :=
      get_default_stats_writers_length run_options _ hdef
    rw [List.length_flatten, sum_map_eraseIdx List.length outs j hj, h4]

theorem resolve_concatenates_plugin_sinks_witness :
    registry_contains twoPluginRegistry ML_AGENTS_STATS_WRITER = true ∧
    ((∃ logs, register_stats_writer_plugins twoPluginRegistry sampleRunOptions =
        .ok (logs, ([[.gaugeWriter], [.consoleWriter, .gaugeWriter]] :
          List (List StatsWriterInst)).flatten)) ∧
      ([[.gaugeWriter], [.consoleWriter, .gaugeWriter]] :
          List (List StatsWriterInst)).flatten.length =
        (([[.gaugeWriter], [.consoleWriter, .gaugeWriter]] :
          List (List StatsWriterInst)).map List.length).sum ∧
      ∀ j (hj : j < ([[.gaugeWriter], [.consoleWriter, .gaugeWriter]] :
          List (List StatsWriterInst)).length),
        get_default_stats_writers sampleRunOptions =
          .ok (([[.gaugeWriter], [.consoleWriter, .gaugeWriter]] :
            List (List StatsWriterInst)).get ⟨j, hj⟩) →
        ([[.gaugeWriter], [.consoleWriter, .gaugeWriter]] :
            List (List StatsWriterInst)).flatten.length =
          4 + ((([[.gaugeWriter], [.consoleWriter, .gaugeWriter]] :
            List (List StatsWriterInst)).eraseIdx j).map List.length).sum) :=
  ⟨rfl,
   resolve_concatenates_plugin_sinks twoPluginRegistry sampleRunOptions rfl
     [[.gaugeWriter], [.consoleWriter, .gaugeWriter]] rfl
     (fun i hi => by
       rcases i with _ | _ | n
       · exact ⟨_, rfl, rfl⟩
       · exact ⟨_, rfl, rfl⟩
       · have h2 : (registry_lookup twoPluginRegistry
            ML_AGENTS_STATS_WRITER).length = 2 := rfl
         exact absurd (h2 ▸ hi) (by omega))⟩

/-- C3: For every RunOptions and registered entry points, an entry point
whose load or factory invocation fails contributes zero sinks, the
failure is logged at error level naming the entry and absorbed (the
resolve call still returns successfully), and the remaining entry points
are still processed: the result is the concatenation of the contributions
of the entries before and after the failing one. -/
theorem resolve_isolates_failing_entry_point (reg : EntryPointRegistry)
    (run_options : RunOptions)
    (hkey : registry_contains reg ML_AGENTS_STATS_WRITER = true)
    (pre post : List EntryPoint) (bad : EntryPoint)
    (heps : registry_lookup reg ML_AGENTS_STATS_WRITER = pre ++ bad :: post)
    (hbad : (∃ e, bad.load = .error e) ∨
      ∃ f e, bad.load = .ok f ∧ f run_options = .error e) :
    (process_entry_point run_options bad).2 = [] ∧
    plugin_failure_msg bad.name ∈ (process_entry_point run_options bad).1 ∧
    (plugin_failure_msg bad.name).level = .errorLevel ∧
    ∃ logs, register_stats_writer_plugins reg run_options =
      .ok (logs,
        (pre.map (fun ep => (process_entry_point run_options ep).2)).flatten ++
        (post.map (fun ep => (process_entry_point run_options ep).2)).flatten) := by
  have hproc : (process_entry_point run_options bad).2 = [] ∧
      plugin_failure_msg bad.name ∈ (process_entry_point run_options bad).1 := by
    unfold process_entry_point
    rcases hbad with ⟨e, he⟩ | ⟨f, e, hf, hfe⟩
    · rw [he]
      exact ⟨rfl, by simp⟩
    · rw [hf]
      dsimp only
      rw [hfe]
      exact ⟨rfl, by simp⟩
  have hW : ((pre ++ bad :: post).map
        (fun ep => (process_entry_point run_options ep).2)).flatten =
      (pre.map (fun ep => (process_entry_point run_options ep).2)).flatten ++
      (post.map (fun ep => (process_entry_point run_options ep).2)).flatten := by
    rw [List.map_append, List.flatten_append, List.map_cons, List.flatten_cons,
      hproc.1, List.nil_append]
  refine ⟨hproc.1, hproc.2, rfl,
    ⟨((pre ++ bad :: post).map
        (fun ep => (process_entry_point run_options ep).1)).flatten, ?_⟩⟩
  rw [register_plugins_found reg run_options hkey, heps, hW]

theorem resolve_isolates_failing_entry_point_witness :
    registry_contains failingPluginRegistry ML_AGENTS_STATS_WRITER = true ∧
    (process_entry_point sampleRunOptions raisingPluginEntryPoint).2 = [] ∧
    plugin_failure_msg "raising_plugin" ∈
      (process_entry_point sampleRunOptions raisingPluginEntryPoint).1 ∧
    (plugin_failure_msg "raising_plugin").level = .errorLevel ∧
    ∃ logs, register_stats_writer_plugins failingPluginRegistry sampleRunOptions =
      .ok (logs, [.gaugeWriter, .consoleWriter, .gaugeWriter]) :=
  have h := resolve_isolates_failing_entry_point failingPluginRegistry
    sampleRunOptions rfl [gaugePluginEntryPoint] [pairPluginEntryPoint]
    raisingPluginEntryPoint rfl (.inr ⟨_, _, rfl, rfl⟩)
  ⟨rfl, h.1, h.2.1, h.2.2.1, h.2.2.2⟩

/-- C9 counterexample: the claim that an AttributeError-equivalent from
the flattener always propagates uncaught to the caller of resolve fails —
with the defaults registered as an entry point (the normal installation),
a RunOptions whose behavior lacks a `hyperparameters` attribute makes the
default-writer construction fail, yet resolution returns successfully
(with an empty writer list), the failure having been absorbed by the
per-plugin catch-all. -/
theorem flattener_failure_absorbed_counterexample :
    get_default_stats_writers malformedRunOptions =
      .error (.attributeError "hyperparameters") ∧
    register_stats_writer_plugins defaultOnlyRegistry malformedRunOptions =
      .ok ([⟨.debugLevel, "Initializing StatsWriter plugins: default"⟩,
            plugin_failure_msg "default"], []) :=
  ⟨by rfl, by rfl⟩

/-- C9 (amended): the flattener/default-writer factory performs no
validation, so a missing nested field surfaces as an
AttributeError-equivalent that the factory itself never catches; the
failure propagates uncaught to the caller of resolve on the fallback
path, i.e. when the stats-writer namespace key is absent from the host
registry (whereas a factory invoked as a registered entry point has the
same failure absorbed by the per-plugin catch-all). -/
theorem flattener_failure_propagates_without_entry_points
    (reg : EntryPointRegistry) (run_options : RunOptions) (e : PyErr)
    (hkey : registry_contains reg ML_AGENTS_STATS_WRITER = false)
    (hfail : extract_config run_options = .error e) :
    get_default_stats_writers run_options = .error e ∧
    register_stats_writer_plugins reg run_options = .error e := by
  have hdef : get_default_stats_writers run_options = .error e := by
    unfold get_default_stats_writers config_flattener
    rw [hfail]
  refine ⟨hdef, ?_⟩
  rw [register_no_key reg run_options hkey, hdef]

theorem flattener_failure_propagates_without_entry_points_witness :
    registry_contains emptyRegistry ML_AGENTS_STATS_WRITER = false ∧
    extract_config malformedRunOptions =
      .error (.attributeError "hyperparameters") ∧
    get_default_stats_writers malformedRunOptions =
      .error (.attributeError "hyperparameters") ∧
    register_stats_writer_plugins emptyRegistry malformedRunOptions =
      .error (.attributeError "hyperparameters") :=
  have h := flattener_failure_propagates_without_entry_points emptyRegistry
    malformedRunOptions (.attributeError "hyperparameters") rfl (by rfl)
  ⟨rfl, by rfl, h.1, h.2⟩

/-- C10: Implicit claim — within each behavior entry, the flattener
inserts the hyperparameter sub-object's attributes before the behavior
object's own attributes; hence when a behavior object attribute shares a
key name with one of its own hyperparameters, the behavior object's value
is what the resulting dictionary holds under that key. -/
theorem behavior_attribute_overwrites_hyperparameter
    (acc : List (String × PyVal)) (behavior_settings hp : PyVal)
    (d : List (String × PyVal)) (k : String) (v w : PyVal)
    (hstep : extract_behavior acc behavior_settings = .ok d)
    (hhp : getattr? behavior_settings "hyperparameters" = .ok hp)
    (_hw : (k, w) ∈ get_attributes hp)
    (hnodup : ((get_attributes behavior_settings).map Prod.fst).Nodup)
    (hv : (k, v) ∈ get_attributes behavior_settings) :
    dictGet d k = some v := by
  unfold extract_behavior at hstep
  rw [hhp] at hstep
  dsimp only at hstep
  injection hstep with hstep
  rw [← hstep]
  exact dictGet_dictUpdate_mem _ _ hnodup hv

/-- The dictionary `extract_behavior` builds from the sample behavior,
written out: the behavior's own `learning_rate` attribute has overwritten
the hyperparameter of the same name, in place. -/
def sampleBehaviorExtract : List (String × PyVal) :=
  [("batch_size", .vint 64),
   ("learning_rate", .vstr "overridden"),
   ("hyperparameters", sampleHyper),
   ("max_steps", .vint 500000)]

theorem behavior_attribute_overwrites_hyperparameter_witness :
    extract_behavior [] sampleBehavior = .ok sampleBehaviorExtract ∧
    ("learning_rate", PyVal.vstr "0.0003") ∈ get_attributes sampleHyper ∧
    ("learning_rate", PyVal.vstr "overridden") ∈ get_attributes sampleBehavior ∧
    dictGet sampleBehaviorExtract "learning_rate" =
      some (PyVal.vstr "overridden") :=
  ⟨by rfl, by decide, by decide,
   behavior_attribute_overwrites_hyperparameter [] sampleBehavior sampleHyper
     sampleBehaviorExtract "learning_rate" (.vstr "overridden") (.vstr "0.0003")
     (by rfl) (by rfl) (by decide) (by decide) (by decide)⟩
